import Mathlib

/-!
Shallow embedding of the calculation and calibration-statistics engine of
`velocidad.py` (class `PipeVelocityCalculator` plus the statistics block of
`update_calibration_plot` / `export_results`).

Numeric model: Python floats are modelled as exact rationals (`ℚ`).  The
source computes the flow area with `math.pi`; `math.pi` is a concrete IEEE-754
double whose exact rational value is `884279719003555 / 281474976710656`, so
the area and velocity computations stay inside `ℚ`.  The only genuinely
irrational operation in the engine is the square root inside `np.std`, which
is modelled with `Real.sqrt`.
-/

namespace Velocidad

/-- Exact rational value of the IEEE-754 double `math.pi` used by the source. -/
def mathPi : ℚ := 884279719003555 / 281474976710656

/-- Qualitative velocity regime returned by `analyze_velocity`
(source lines 445-456). -/
inductive Regime where
  | LOW
  | OPTIMAL
  | ACCEPTABLE
  | HIGH
  | VERY_HIGH
  deriving DecidableEq, Repr

/-- `convert_flow_to_m3_per_s` (source lines 374-385): dictionary dispatch on
the combo-box index with `dict.get(unit_index, 0)`, i.e. a default result of
`0` for any index outside `0..6`.  The factors are `0.00006309 = 6309e-8`
(GPM) and `0.00047194 = 47194e-8` (CFM). -/
def convert_flow_to_m3_per_s (flow_value : ℚ) (unit_index : ℕ) : ℚ :=
  match unit_index with
  | 0 => flow_value / 3600
  | 1 => flow_value / 3600000
  | 2 => flow_value / 60000
  | 3 => flow_value / 1000
  | 4 => flow_value
  | 5 => flow_value * (6309 / 100000000)
  | 6 => flow_value * (47194 / 100000000)
  | _ => 0

/-- `analyze_velocity` (source lines 445-456): the if/elif chain classifying a
velocity into a regime. -/
def analyze_velocity (velocity : ℚ) : Regime :=
  if velocity < 1/2 then .LOW
  else if velocity ≤ 3/2 then .OPTIMAL
  else if velocity ≤ 3 then .ACCEPTABLE
  else if velocity ≤ 5 then .HIGH
  else .VERY_HIGH

/-- The numeric outputs of `calculate_velocity` (source lines 387-443):
intermediate inner diameter, flow area, converted flow, and the velocity. -/
structure VelocityOutput where
  diametro_interior_mm : ℚ
  area_m2 : ℚ
  caudal_m3_s : ℚ
  velocidad : ℚ
  deriving DecidableEq, Repr

/-- `calculate_velocity` (source lines 387-443), restricted to its numeric
core: the two validation checks (lines 402-408) return with a warning and no
result; otherwise lines 410-416 compute the converted flow, inner diameter,
area and velocity. -/
def calculate_velocity (caudal diametro_exterior espesor : ℚ)
    (unit_index : ℕ) : Option VelocityOutput :=
  if caudal ≤ 0 ∨ diametro_exterior ≤ 0 ∨ espesor < 0 then none
  else if espesor ≥ diametro_exterior / 2 then none
  else
    let caudal_m3_s := convert_flow_to_m3_per_s caudal unit_index
    let diametro_interior_mm := diametro_exterior - 2 * espesor
    let diametro_interior_m := diametro_interior_mm / 1000
    let area_m2 := mathPi * (diametro_interior_m / 2) ^ 2
    some ⟨diametro_interior_mm, area_m2, caudal_m3_s, caudal_m3_s / area_m2⟩

/-- A calibration point: the dict appended to `self.calibration_data`
(source lines 499-504). -/
structure CalibrationPoint where
  punto : ℕ
  velocidad_patron : ℚ
  velocidad_equipo : ℚ
  error : ℚ
  deriving DecidableEq, Repr

/-- A raw text field of the calibration form as the engine sees it: empty
(line 467 check), not parseable as a float (`float()` raising ValueError,
caught at line 520), or a parsed numeric value. -/
inductive RawField where
  | missing
  | nonNumeric
  | value (q : ℚ)
  deriving DecidableEq, Repr

/-- Observable outcome of one `add_calibration_point` call: the session data
afterwards, the point created (if any), and whether the advisory
"Calibración completa" message box was shown (lines 516-518). -/
structure AddOutcome where
  data : List CalibrationPoint
  added : Option CalibrationPoint
  advisory : Bool
  deriving DecidableEq, Repr

/-- `add_calibration_point` (source lines 458-523): any missing or
non-numeric field, or a failed validation (lines 478-484), returns with a
warning and the data untouched; otherwise lines 486-504 compute the reference
velocity and append one point with `punto = len(data) + 1` and
`error = velocidad_equipo - velocidad_patron`; lines 516-518 then show the
advisory whenever `len(data) >= 10`. -/
def add_calibration_point (data : List CalibrationPoint)
    (diametro_raw espesor_raw caudal_raw velocidad_raw : RawField)
    (unit_index : ℕ) : AddOutcome :=
  match diametro_raw, espesor_raw, caudal_raw, velocidad_raw with
  | .value diametro_exterior, .value espesor, .value caudal,
      .value velocidad_equipo =>
    if diametro_exterior ≤ 0 ∨ espesor < 0 ∨ caudal ≤ 0 then
      ⟨data, none, false⟩
    else if espesor ≥ diametro_exterior / 2 then ⟨data, none, false⟩
    else
      let caudal_m3_s := convert_flow_to_m3_per_s caudal unit_index
      let diametro_interior_m := (diametro_exterior - 2 * espesor) / 1000
      let area_m2 := mathPi * (diametro_interior_m / 2) ^ 2
      let velocidad_patron := caudal_m3_s / area_m2
      let p : CalibrationPoint := ⟨data.length + 1, velocidad_patron,
        velocidad_equipo, velocidad_equipo - velocidad_patron⟩
      ⟨data ++ [p], some p, decide (10 ≤ (data ++ [p]).length)⟩
  | _, _, _, _ => ⟨data, none, false⟩

/-- One fixed valid add call (outer 2000 mm, wall 0 mm, flow 1 m³/s,
instrument reading 1 m/s), used to build concrete sessions. -/
def addSimple (data : List CalibrationPoint) : List CalibrationPoint :=
  (add_calibration_point data (.value 2000) (.value 0) (.value 1)
    (.value 1) 4).data

/-- The point created by the fixed add call of `addSimple`. -/
def addFixedPoint (data : List CalibrationPoint) : CalibrationPoint :=
  ⟨data.length + 1, 1 / (mathPi * ((2000 - 2 * 0) / 1000 / 2) ^ 2), 1,
    1 - 1 / (mathPi * ((2000 - 2 * 0) / 1000 / 2) ^ 2)⟩

/-- An operation on the calibration tab: an add with raw form fields, or a
press of "Limpiar Calibración", whose confirmation dialog (source lines
573-578) only clears the data when answered Yes. -/
inductive SessionOp where
  | addPoint (diametro_raw espesor_raw caudal_raw velocidad_raw : RawField)
      (unit_index : ℕ)
  | clearData (confirmed : Bool)

/-- A session trace: the current `self.calibration_data` list plus the list
of every point the session has ever created (across clears). -/
structure SessionTrace where
  data : List CalibrationPoint
  created : List CalibrationPoint
  deriving DecidableEq, Repr

/-- One UI operation applied to a session trace: `add_calibration_point`
(lines 458-523) or `clear_calibration` (lines 571-582). -/
def stepSession (s : SessionTrace) : SessionOp → SessionTrace
  | .addPoint d e c v u =>
      let out := add_calibration_point s.data d e c v u
      ⟨out.data, s.created ++ out.added.toList⟩
  | .clearData confirmed => if confirmed then ⟨[], s.created⟩ else s

/-- Run a list of operations on a session that starts empty. -/
def runSession (ops : List SessionOp) : SessionTrace :=
  ops.foldl stepSession ⟨[], []⟩

/-- `np.mean(errors)` (source line 547): arithmetic mean. -/
def mean_error (errors : List ℚ) : ℚ := errors.sum / (errors.length : ℚ)

/-- The radicand of `np.std(errors, ddof=1)`: sum of squared deviations from
the mean divided by n − 1. -/
def sample_variance (errors : List ℚ) : ℚ :=
  (errors.map (fun e => (e - mean_error errors) ^ 2)).sum /
    ((errors.length : ℚ) - 1)

/-- `np.std(errors, ddof=1) if len(errors) > 1 else 0`
(source lines 548 and 615). -/
noncomputable def std_error (errors : List ℚ) : ℝ :=
  if 1 < errors.length then Real.sqrt ((sample_variance errors : ℚ) : ℝ)
  else 0

/-- The statistics dict of `update_calibration_plot` (source lines 546-551). -/
structure CalibrationStatistics where
  mean_error : ℚ
  std_error : ℝ
  max_error : ℚ
  min_error : ℚ

/-- The statistics block of `update_calibration_plot` (lines 535-551): with no
points the function returns early and produces no statistics (line 537);
otherwise it builds the dict from the error column.  Python's `max`/`min`
over a nonempty list are folds from its first element. -/
noncomputable def compute_statistics :
    List CalibrationPoint → Option CalibrationStatistics
  | [] => none
  | p :: rest =>
      let errors := (p :: rest).map (fun q => q.error)
      some ⟨mean_error errors, std_error errors,
        errors.foldl max p.error, errors.foldl min p.error⟩

/-- `2*statistics['std_error']`: the expanded uncertainty (k=2) displayed at
source lines 564 and 623. -/
noncomputable def expanded_uncertainty (s : CalibrationStatistics) : ℝ :=
  2 * s.std_error

/-! ## Helper lemmas -/

/-- Either an `add_calibration_point` call leaves the data unchanged, or it
appends exactly one point whose index is the previous count plus one. -/
theorem add_calibration_point_data_cases (data : List CalibrationPoint)
    (d e c v : RawField) (u : ℕ) :
    (add_calibration_point data d e c v u).data = data ∨
    ∃ p : CalibrationPoint, p.punto = data.length + 1 ∧
      (add_calibration_point data d e c v u).data = data ++ [p] := by
  cases d <;> cases e <;> cases c <;> cases v <;> try exact Or.inl rfl
  simp only [add_calibration_point]
  split_ifs
  · exact Or.inl rfl
  · exact Or.inl rfl
  · exact Or.inr ⟨_, rfl, rfl⟩

/-- The fixed add call of `addSimple` always succeeds and appends
`addFixedPoint data`. -/
theorem addFixed_eq (data : List CalibrationPoint) :
    add_calibration_point data (.value 2000) (.value 0) (.value 1)
        (.value 1) 4 =
      ⟨data ++ [addFixedPoint data], some (addFixedPoint data),
        decide (10 ≤ (data ++ [addFixedPoint data]).length)⟩ := by
  simp only [add_calibration_point]
  rw [if_neg (by norm_num), if_neg (by norm_num)]
  rfl

/-- The fixed add call always grows the session by one point. -/
theorem addSimple_length (data : List CalibrationPoint) :
    (addSimple data).length = data.length + 1 := by
  simp [addSimple, addFixed_eq]

/-- Iterating the fixed add call n times from the empty session yields n
points. -/
theorem iterate_addSimple_length (n : ℕ) : (addSimple^[n] []).length = n := by
  induction n with
  | zero => rfl
  | succ k ih =>
    rw [Function.iterate_succ_apply', addSimple_length, ih]

/-- The engine's output of `calculate_velocity` on the spec's end-to-end
example 1: outer 114.3 mm, wall 6.02 mm, flow 10 m³/h. -/
theorem calculate_velocity_example1 :
    calculate_velocity 10 (1143/10) (301/50) 0 =
      some ⟨5113/50, mathPi * (5113/100000) ^ 2, 1/360,
        1/360 / (mathPi * (5113/100000) ^ 2)⟩ := by
  unfold calculate_velocity
  rw [if_neg (by norm_num), if_neg (by norm_num)]
  simp only [convert_flow_to_m3_per_s, Option.some.injEq,
    VelocityOutput.mk.injEq]
  norm_num

/-- Invariant of a session run: the live point list always carries indices
1, 2, …, n in insertion order. -/
theorem foldl_stepSession_indices (ops : List SessionOp) :
    ∀ s : SessionTrace,
      s.data.map (fun p => p.punto) = List.range' 1 s.data.length →
      (ops.foldl stepSession s).data.map (fun p => p.punto) =
        List.range' 1 (ops.foldl stepSession s).data.length := by
  induction ops with
  | nil => exact fun s h => h
  | cons op rest ih =>
    intro s h
    rw [List.foldl_cons]
    apply ih
    cases op with
    | addPoint d e c v u =>
      rcases add_calibration_point_data_cases s.data d e c v u with
        hcase | ⟨p, hp, hcase⟩
      · simpa [stepSession, hcase] using h
      · simp [stepSession, hcase, hp, h, List.range'_1_concat, Nat.add_comm]
    | clearData confirmed =>
      cases confirmed
      · simpa [stepSession] using h
      · simp [stepSession]

/-! ## Claim theorems -/

/-- C1: as stated, the claim fails — `convert_flow_to_m3_per_s` at the
out-of-range unit index 7 does not fail fast: it returns the numeric default
value `0` supplied to `dict.get`. -/
theorem convert_unknown_unit_default_zero_at_7 :
    convert_flow_to_m3_per_s 5 7 = 0 := rfl

/-- C1 (amended): for every flow value, a unit index outside the seven
supported units (index ≥ 7) makes `convert_flow_to_m3_per_s` fall back to the
default value `0` rather than failing. -/
theorem convert_unknown_unit_returns_zero (v : ℚ) (u : ℕ) (hu : 7 ≤ u) :
    convert_flow_to_m3_per_s v u = 0 := by
  obtain ⟨n, rfl⟩ : ∃ n, u = n + 7 := ⟨u - 7, by omega⟩
  rfl

/-- Witness for C1 (amended) at unit index 9 and flow value 3. -/
theorem convert_unknown_unit_returns_zero_witness :
    7 ≤ 9 ∧ convert_flow_to_m3_per_s 3 9 = 0 :=
  ⟨by decide, convert_unknown_unit_returns_zero 3 9 (by decide)⟩

/-- C2: as stated, the claim fails — after a confirmed clear, the index
counter restarts, so a session that adds a point, clears, and adds again
creates two points that both carry index 1. -/
theorem index_reused_after_clear :
    ((runSession [.addPoint (.value 2000) (.value 0) (.value 1) (.value 1) 4,
        .clearData true,
        .addPoint (.value 2000) (.value 0) (.value 1) (.value 1) 4]).created.map
      (fun p => p.punto)) = [1, 1] := by
  simp [runSession, stepSession, addFixed_eq, addFixedPoint]

/-- C2 (amended): within the live point sequence, indices are 1-based and
assigned at insertion: after any sequence of operations the session's points
carry exactly the indices 1, 2, …, n in order (so they are never reused while
the points are alive); a confirmed clear resets the counter, so indices are
reused across clears. -/
theorem session_indices_one_based_in_order (ops : List SessionOp) :
    (runSession ops).data.map (fun p => p.punto) =
      List.range' 1 (runSession ops).data.length :=
  foldl_stepSession_indices ops ⟨[], []⟩ rfl

/-- C3: as stated, the claim fails — after ten points have been added, an
eleventh successful add still fires the advisory (the source's condition is
`len(self.calibration_data) >= 10`, not an equality with 10), so the advisory
is not emitted only at exactly 10 points. -/
theorem advisory_fires_beyond_ten :
    (addSimple^[10] []).length = 10 ∧
    (add_calibration_point (addSimple^[10] []) (.value 2000) (.value 0)
      (.value 1) (.value 1) 4).advisory = true ∧
    (add_calibration_point (addSimple^[10] []) (.value 2000) (.value 0)
      (.value 1) (.value 1) 4).data.length = 11 := by
  have h10 := iterate_addSimple_length 10
  refine ⟨h10, ?_, ?_⟩
  · rw [addFixed_eq]
    simp [addSimple_length]
  · rw [addFixed_eq]
    simp [addSimple_length]

/-- C3 (amended): a successful add fires the advisory exactly when the
resulting point count is at least 10 (so at 10 and at every count beyond);
the advisory is informational only and additions beyond 10 points are not
capped: the point is still appended and the count always grows by one. -/
theorem advisory_iff_count_ge_ten (data : List CalibrationPoint)
    (qd qe qc qv : ℚ) (u : ℕ)
    (h1 : 0 < qd) (h2 : 0 ≤ qe) (h3 : 0 < qc) (h4 : qe < qd / 2) :
    ((add_calibration_point data (.value qd) (.value qe) (.value qc)
        (.value qv) u).advisory = true ↔
      10 ≤ (add_calibration_point data (.value qd) (.value qe) (.value qc)
        (.value qv) u).data.length) ∧
    (add_calibration_point data (.value qd) (.value qe) (.value qc)
        (.value qv) u).data.length = data.length + 1 := by
  have hA : ¬(qd ≤ 0 ∨ qe < 0 ∨ qc ≤ 0) := by push_neg; exact ⟨h1, h2, h3⟩
  have hB : ¬qe ≥ qd / 2 := not_le.mpr h4
  simp only [add_calibration_point]
  rw [if_neg hA, if_neg hB]
  simp

/-- Witness for C3 (amended) on an empty session. -/
theorem advisory_iff_count_ge_ten_witness :
    0 < (2000 : ℚ) ∧ 0 ≤ (0 : ℚ) ∧ 0 < (1 : ℚ) ∧ (0 : ℚ) < 2000 / 2 ∧
    (((add_calibration_point [] (.value 2000) (.value 0) (.value 1)
        (.value 1) 4).advisory = true ↔
      10 ≤ (add_calibration_point [] (.value 2000) (.value 0) (.value 1)
        (.value 1) 4).data.length) ∧
    (add_calibration_point [] (.value 2000) (.value 0) (.value 1)
        (.value 1) 4).data.length =
      ([] : List CalibrationPoint).length + 1) :=
  ⟨by norm_num, by norm_num, by norm_num, by norm_num,
    advisory_iff_count_ge_ten [] 2000 0 1 1 4
      (by norm_num) (by norm_num) (by norm_num) (by norm_num)⟩

/-- C4: a successful `add_calibration_point` call on a session of n points
appends exactly one point at the end, with index n + 1, instrument reading as
given, and error = instrument velocity − reference velocity, the reference
velocity being the converted flow divided by the pipe's flow area. -/
theorem add_point_appends_with_index_and_error (data : List CalibrationPoint)
    (qd qe qc qv : ℚ) (u : ℕ)
    (h1 : 0 < qd) (h2 : 0 ≤ qe) (h3 : 0 < qc) (h4 : qe < qd / 2) :
    (add_calibration_point data (.value qd) (.value qe) (.value qc)
        (.value qv) u).data =
      data ++ [⟨data.length + 1,
        convert_flow_to_m3_per_s qc u /
          (mathPi * ((qd - 2 * qe) / 1000 / 2) ^ 2),
        qv,
        qv - convert_flow_to_m3_per_s qc u /
          (mathPi * ((qd - 2 * qe) / 1000 / 2) ^ 2)⟩] := by
  have hA : ¬(qd ≤ 0 ∨ qe < 0 ∨ qc ≤ 0) := by push_neg; exact ⟨h1, h2, h3⟩
  have hB : ¬qe ≥ qd / 2 := not_le.mpr h4
  simp only [add_calibration_point]
  rw [if_neg hA, if_neg hB]

/-- Witness for C4: adding to an empty session with outer 2000 mm, wall 0 mm,
flow 1 m³/s, instrument reading 1 m/s. -/
theorem add_point_appends_with_index_and_error_witness :
    0 < (2000 : ℚ) ∧ 0 ≤ (0 : ℚ) ∧ 0 < (1 : ℚ) ∧ (0 : ℚ) < 2000 / 2 ∧
    (add_calibration_point [] (.value 2000) (.value 0) (.value 1)
        (.value 1) 4).data =
      [] ++ [⟨([] : List CalibrationPoint).length + 1,
        convert_flow_to_m3_per_s 1 4 /
          (mathPi * ((2000 - 2 * 0) / 1000 / 2) ^ 2),
        1,
        1 - convert_flow_to_m3_per_s 1 4 /
          (mathPi * ((2000 - 2 * 0) / 1000 / 2) ^ 2)⟩] :=
  ⟨by norm_num, by norm_num, by norm_num, by norm_num,
    add_point_appends_with_index_and_error [] 2000 0 1 1 4
      (by norm_num) (by norm_num) (by norm_num) (by norm_num)⟩

/-- C5: the seven conversion factors to m³/s are exactly the spec's table —
divide by 3600 (m³/h), 3600000 (L/h), 60000 (L/min), 1000 (L/s), identity
(m³/s), multiply by 0.00006309 (GPM) and 0.00047194 (CFM); in particular
3600 m³/h and 1 m³/s both convert to 1.0 m³/s. -/
theorem conversion_factors :
    (∀ v : ℚ,
      convert_flow_to_m3_per_s v 0 = v / 3600 ∧
      convert_flow_to_m3_per_s v 1 = v / 3600000 ∧
      convert_flow_to_m3_per_s v 2 = v / 60000 ∧
      convert_flow_to_m3_per_s v 3 = v / 1000 ∧
      convert_flow_to_m3_per_s v 4 = v ∧
      convert_flow_to_m3_per_s v 5 = v * (6309 / 100000000) ∧
      convert_flow_to_m3_per_s v 6 = v * (47194 / 100000000)) ∧
    convert_flow_to_m3_per_s 3600 0 = 1 ∧
    convert_flow_to_m3_per_s 1 4 = 1 := by
  refine ⟨fun v => ⟨rfl, rfl, rfl, rfl, rfl, rfl, rfl⟩, by norm_num
    [convert_flow_to_m3_per_s], rfl⟩

/-- C6: with a positive flow value, the geometry validations of
`calculate_velocity` reject exactly the invalid pipes — outer ≤ 0, wall < 0
or wall ≥ outer/2 — and on every valid input the output carries
`inner_diameter_mm = outer − 2*wall` and
`flow_area_m2 = π * ((inner_diameter_mm/1000)/2)²` (mm→m by dividing by 1000
before squaring). -/
theorem geometry_validation_and_formulas (caudal diametro espesor : ℚ)
    (u : ℕ) (hc : 0 < caudal) :
    (calculate_velocity caudal diametro espesor u = none ↔
      diametro ≤ 0 ∨ espesor < 0 ∨ diametro / 2 ≤ espesor) ∧
    ∀ out, calculate_velocity caudal diametro espesor u = some out →
      out.diametro_interior_mm = diametro - 2 * espesor ∧
      out.area_m2 = mathPi * ((diametro - 2 * espesor) / 1000 / 2) ^ 2 := by
  unfold calculate_velocity
  split_ifs with h1 h2
  · refine ⟨⟨fun _ => ?_, fun _ => rfl⟩, fun out h => by cases h⟩
    rcases h1 with h | h | h
    · exact absurd h (not_le.mpr hc)
    · exact Or.inl h
    · exact Or.inr (Or.inl h)
  · exact ⟨⟨fun _ => Or.inr (Or.inr h2), fun _ => rfl⟩, fun out h => by cases h⟩
  · push_neg at h1 h2
    constructor
    · constructor
      · intro h; exact absurd h (by simp)
      · intro h
        exfalso
        rcases h with h | h | h
        · linarith [h1.2.1]
        · linarith [h1.2.2]
        · linarith
    · intro out h
      simp only [Option.some.injEq] at h
      subst h
      exact ⟨rfl, rfl⟩

/-- Witness for C6 at flow 1, outer diameter 100 mm, wall 10 mm, unit m³/h. -/
theorem geometry_validation_and_formulas_witness :
    0 < (1 : ℚ) ∧
    ((calculate_velocity 1 100 10 0 = none ↔
        (100 : ℚ) ≤ 0 ∨ (10 : ℚ) < 0 ∨ (100 : ℚ) / 2 ≤ 10) ∧
      ∀ out, calculate_velocity 1 100 10 0 = some out →
        out.diametro_interior_mm = 100 - 2 * 10 ∧
        out.area_m2 = mathPi * ((100 - 2 * 10) / 1000 / 2) ^ 2) :=
  ⟨by norm_num, geometry_validation_and_formulas 1 100 10 0 (by norm_num)⟩

/-- C7: the regime boundaries are closed exactly as claimed: `v < 0.5` gives
LOW, `0.5 ≤ v ≤ 1.5` (both endpoints included) gives OPTIMAL,
`1.5 < v ≤ 3.0` gives ACCEPTABLE, `3.0 < v ≤ 5.0` gives HIGH and `v > 5.0`
gives VERY_HIGH. -/
theorem regime_boundaries (v : ℚ) :
    (v < 1/2 → analyze_velocity v = Regime.LOW) ∧
    (1/2 ≤ v → v ≤ 3/2 → analyze_velocity v = Regime.OPTIMAL) ∧
    (3/2 < v → v ≤ 3 → analyze_velocity v = Regime.ACCEPTABLE) ∧
    (3 < v → v ≤ 5 → analyze_velocity v = Regime.HIGH) ∧
    (5 < v → analyze_velocity v = Regime.VERY_HIGH) := by
  unfold analyze_velocity
  refine ⟨fun h => ?_, fun h1 h2 => ?_, fun h1 h2 => ?_,
    fun h1 h2 => ?_, fun h => ?_⟩ <;>
    split_ifs <;> first | rfl | linarith

/-- Witness for C7 at the four boundary values and one interior value of each
open-ended regime. -/
theorem regime_boundaries_witness :
    analyze_velocity (1/2) = Regime.OPTIMAL ∧
    analyze_velocity (3/2) = Regime.OPTIMAL ∧
    analyze_velocity 3 = Regime.ACCEPTABLE ∧
    analyze_velocity 5 = Regime.HIGH ∧
    analyze_velocity (1/4) = Regime.LOW ∧
    analyze_velocity 6 = Regime.VERY_HIGH :=
  ⟨(regime_boundaries (1/2)).2.1 (by norm_num) (by norm_num),
   (regime_boundaries (3/2)).2.1 (by norm_num) (by norm_num),
   (regime_boundaries 3).2.2.1 (by norm_num) (by norm_num),
   (regime_boundaries 5).2.2.2.1 (by norm_num) (by norm_num),
   (regime_boundaries (1/4)).1 (by norm_num),
   (regime_boundaries 6).2.2.2.2 (by norm_num)⟩

/-- C8: with zero points no statistics are produced at all (the empty-state
sentinel `none`, distinct from all-zero statistics); with exactly one point
`std_error` is the numeric zero and the expanded uncertainty `2*std_error` is
zero as well. -/
theorem statistics_empty_and_single_point :
    compute_statistics [] = none ∧
    ∀ p : CalibrationPoint, ∃ s, compute_statistics [p] = some s ∧
      s.std_error = 0 ∧ expanded_uncertainty s = 0 := by
  refine ⟨rfl, fun p => ⟨_, rfl, ?_, ?_⟩⟩
  · simp [std_error]
  · simp [expanded_uncertainty, std_error]

/-- C9: as stated, the claim fails — on outer 114.3 mm, wall 6.02 mm, flow
10 m³/h the computed velocity exceeds 0.3381 by more than the spec's stated
floating tolerance of ±0.00005 (the true value is ≈0.33822, which is 0.3382
to four decimals, not 0.3381). -/
theorem example1_velocity_not_03381 :
    calculate_velocity 10 (1143/10) (301/50) 0 =
      some ⟨5113/50, mathPi * (5113/100000) ^ 2, 1/360,
        1/360 / (mathPi * (5113/100000) ^ 2)⟩ ∧
    3381/10000 + 5/100000 < 1/360 / (mathPi * ((5113 : ℚ)/100000) ^ 2) :=
  ⟨calculate_velocity_example1, by norm_num [mathPi]⟩

/-- C9 (amended): on outer 114.3 mm, wall 6.02 mm, flow 10 m³/h the output
has inner diameter exactly 102.26 mm, flow area within ±0.00005 of
0.008215 m², converted flow within ±0.00005 of 0.002778 m³/s, velocity within
±0.00005 of 0.3382 m/s (not 0.3381), and regime LOW. -/
theorem example1_amended_values :
    calculate_velocity 10 (1143/10) (301/50) 0 =
      some ⟨5113/50, mathPi * (5113/100000) ^ 2, 1/360,
        1/360 / (mathPi * (5113/100000) ^ 2)⟩ ∧
    |mathPi * ((5113 : ℚ)/100000) ^ 2 - 8215/1000000| ≤ 5/100000 ∧
    |(1 : ℚ)/360 - 2778/1000000| ≤ 5/100000 ∧
    |1/360 / (mathPi * ((5113 : ℚ)/100000) ^ 2) - 3382/10000| ≤ 5/100000 ∧
    analyze_velocity (1/360 / (mathPi * (5113/100000) ^ 2)) = Regime.LOW := by
  refine ⟨calculate_velocity_example1, ?_, ?_, ?_, ?_⟩
  · rw [abs_le]
    constructor <;> norm_num [mathPi]
  · rw [abs_le]
    constructor <;> norm_num
  · rw [abs_le]
    constructor <;> norm_num [mathPi]
  · unfold analyze_velocity
    rw [if_pos (by norm_num [mathPi])]

/-- C10: if any validation rejects the input — a missing field, a non-numeric
field, flow ≤ 0, outer diameter ≤ 0, wall < 0, or wall ≥ outer/2 — the point
sequence is left completely unchanged. -/
theorem add_point_atomic_on_failure (data : List CalibrationPoint)
    (d e c v : RawField) (u : ℕ)
    (h : (d = .missing ∨ d = .nonNumeric ∨ e = .missing ∨ e = .nonNumeric ∨
          c = .missing ∨ c = .nonNumeric ∨ v = .missing ∨ v = .nonNumeric) ∨
         ∃ qd qe qc qv, d = .value qd ∧ e = .value qe ∧ c = .value qc ∧
           v = .value qv ∧ (qc ≤ 0 ∨ qd ≤ 0 ∨ qe < 0 ∨ qd / 2 ≤ qe)) :
    (add_calibration_point data d e c v u).data = data := by
  rcases h with h | ⟨qd, qe, qc, qv, rfl, rfl, rfl, rfl, hfail⟩
  · rcases h with rfl | rfl | rfl | rfl | rfl | rfl | rfl | rfl
    · cases e <;> cases c <;> cases v <;> rfl
    · cases e <;> cases c <;> cases v <;> rfl
    · cases d <;> cases c <;> cases v <;> rfl
    · cases d <;> cases c <;> cases v <;> rfl
    · cases d <;> cases e <;> cases v <;> rfl
    · cases d <;> cases e <;> cases v <;> rfl
    · cases d <;> cases e <;> cases c <;> rfl
    · cases d <;> cases e <;> cases c <;> rfl
  · simp only [add_calibration_point]
    split_ifs with hA hB
    · rfl
    · rfl
    · exfalso
      push_neg at hA hB
      rcases hfail with h | h | h | h <;>
        linarith [hA.1, hA.2.1, hA.2.2, hB]

/-- Witness for C10: wall thickness 60 ≥ 100/2 is rejected and the empty
session stays empty. -/
theorem add_point_atomic_on_failure_witness :
    ((RawField.value (100 : ℚ) = RawField.missing ∨
      RawField.value (100 : ℚ) = RawField.nonNumeric ∨
      RawField.value (60 : ℚ) = RawField.missing ∨
      RawField.value (60 : ℚ) = RawField.nonNumeric ∨
      RawField.value (10 : ℚ) = RawField.missing ∨
      RawField.value (10 : ℚ) = RawField.nonNumeric ∨
      RawField.value (1 : ℚ) = RawField.missing ∨
      RawField.value (1 : ℚ) = RawField.nonNumeric) ∨
     ∃ qd qe qc qv, RawField.value (100 : ℚ) = RawField.value qd ∧
       RawField.value (60 : ℚ) = RawField.value qe ∧
       RawField.value (10 : ℚ) = RawField.value qc ∧
       RawField.value (1 : ℚ) = RawField.value qv ∧
       (qc ≤ 0 ∨ qd ≤ 0 ∨ qe < 0 ∨ qd / 2 ≤ qe)) ∧
    (add_calibration_point [] (.value 100) (.value 60) (.value 10)
      (.value 1) 0).data = [] :=
  ⟨Or.inr ⟨100, 60, 10, 1, rfl, rfl, rfl, rfl,
      Or.inr (Or.inr (Or.inr (by norm_num)))⟩,
    add_point_atomic_on_failure [] (.value 100) (.value 60) (.value 10)
      (.value 1) 0
      (Or.inr ⟨100, 60, 10, 1, rfl, rfl, rfl, rfl,
        Or.inr (Or.inr (Or.inr (by norm_num)))⟩)⟩

end Velocidad
